import Mathlib

/-!
Verification of the style-token specification for the OmniGroup file
`Frameworks/OmniUI/iPad/OUIParameters.h`.

The header declares plain C constants: gray+alpha pairs (`OUIGrayAlpha`),
HSV+alpha tuples (`OSHSV`), linear-RGB+alpha tuples (`OQLinearRGBA`),
scalar CGFloat values, and one CGSize offset.  The decimal literals in the
header are modelled as exact rationals (the claims concern exact decimal
values, interval bounds and order comparisons, all of which are about the
literal decimal quantities, not about any binary rounding of them).
-/

namespace OUIParameters

/-- The `OUIGrayAlpha` struct from OUIParameters.h: `CGFloat v, a`. -/
structure OUIGrayAlpha where
  v : ℚ
  a : ℚ
deriving DecidableEq

/-- The `OSHSV` color type from OmniQuartz (hue, saturation, value, alpha). -/
structure OSHSV where
  h : ℚ
  s : ℚ
  v : ℚ
  a : ℚ
deriving DecidableEq

/-- The `OQLinearRGBA` color type from OmniQuartz (red, green, blue, alpha). -/
structure OQLinearRGBA where
  r : ℚ
  g : ℚ
  b : ℚ
  a : ℚ
deriving DecidableEq

/-- A `CGSize`: width and height (used for the shadow offset). -/
structure CGSize where
  width : ℚ
  height : ℚ
deriving DecidableEq

/-- A style value: one of the value shapes appearing in OUIParameters.h. -/
inductive StyleValue where
  | grayAlpha (g : OUIGrayAlpha)
  | hsva (c : OSHSV)
  | rgba (c : OQLinearRGBA)
  | scalar (q : ℚ)
  | size (sz : CGSize)
deriving DecidableEq

/-- A style-token table state: an association list from keys to values. -/
abbrev Table := List (String × StyleValue)

/-- Whether `key` is registered in table state `t`. -/
def containsKey (t : Table) (key : String) : Bool :=
  t.any (fun p => p.1 == key)

/-- Result type of `lookup`: the registered value, or the UnknownKey error. -/
inductive LookupResult where
  | ok (v : StyleValue)
  | unknownKey
deriving DecidableEq

/-- Result type of `define`: the extended table, or the DuplicateKey error. -/
inductive DefineResult where
  | ok (t : Table)
  | duplicateKey
deriving DecidableEq

/-- Modelled from the spec: the repository excerpt has no registry code, so
`define(key, value)` of the StyleTokenTable follows the words of the spec:
it registers a token, and fails with `DuplicateKey` if `key` is already
registered. -/
def define (t : Table) (key : String) (v : StyleValue) : DefineResult :=
  if containsKey t key then DefineResult.duplicateKey
  else DefineResult.ok ((key, v) :: t)

/-- Modelled from the spec: `lookup(key)` of the StyleTokenTable returns the
registered value and fails with `UnknownKey` if `key` was never
registered. -/
def lookup (t : Table) (key : String) : LookupResult :=
  match t with
  | [] => LookupResult.unknownKey
  | p :: rest => if p.1 == key then LookupResult.ok p.2 else lookup rest key

/-- Modelled from the spec: `lookup` viewed through the stateful interface of
the table; it returns its result together with the (unchanged) table state,
so that sequential invocations can be compared. -/
def lookupS (t : Table) (key : String) : LookupResult × Table :=
  (lookup t key, t)

/-- Register a whole list of tokens in order, stopping at the first
`DuplicateKey` failure (initialization of the table at startup). -/
def defineAll (t : Table) : List (String × StyleValue) → DefineResult
  | [] => DefineResult.ok t
  | (key, v) :: rest =>
      match define t key v with
      | DefineResult.ok t2 => defineAll t2 rest
      | DefineResult.duplicateKey => DefineResult.duplicateKey

/-- Key for `kOUIInspectorWellBorderGradientStartGrayAlpha`. -/
def keyWellBorderGradientStartGrayAlpha : String :=
  "kOUIInspectorWellBorderGradientStartGrayAlpha"

/-- Key for `kOUIInspectorWellBorderGradientEndGrayAlpha`. -/
def keyWellBorderGradientEndGrayAlpha : String :=
  "kOUIInspectorWellBorderGradientEndGrayAlpha"

/-- Key for `kOUIInspectorWellInnerShadowGrayAlpha`. -/
def keyWellInnerShadowGrayAlpha : String :=
  "kOUIInspectorWellInnerShadowGrayAlpha"

/-- Key for `kOUIInspectorWellInnerShadowBlur`. -/
def keyWellInnerShadowBlur : String :=
  "kOUIInspectorWellInnerShadowBlur"

/-- Key for `kOUIInspectorWellInnerShadowOffset`. -/
def keyWellInnerShadowOffset : String :=
  "kOUIInspectorWellInnerShadowOffset"

/-- Key for `kOUIInspectorWellOuterShadowGrayAlpha`. -/
def keyWellOuterShadowGrayAlpha : String :=
  "kOUIInspectorWellOuterShadowGrayAlpha"

/-- Key for `kOUIInspectorWellCornerRadius`. -/
def keyWellCornerRadius : String :=
  "kOUIInspectorWellCornerRadius"

/-- Key for `kOUIInspectorTextWellNormalGradientTopColor`. -/
def keyTextWellNormalGradientTopColor : String :=
  "kOUIInspectorTextWellNormalGradientTopColor"

/-- Key for `kOUIInspectorTextWellNormalGradientBottomColor`. -/
def keyTextWellNormalGradientBottomColor : String :=
  "kOUIInspectorTextWellNormalGradientBottomColor"

/-- Key for `kOUIInspectorTextWellHighlightedGradientTopColor`. -/
def keyTextWellHighlightedGradientTopColor : String :=
  "kOUIInspectorTextWellHighlightedGradientTopColor"

/-- Key for `kOUIInspectorTextWellHighlightedGradientBottomColor`. -/
def keyTextWellHighlightedGradientBottomColor : String :=
  "kOUIInspectorTextWellHighlightedGradientBottomColor"

/-- Key for `kOUIInspectorTextWellTextColor`. -/
def keyTextWellTextColor : String :=
  "kOUIInspectorTextWellTextColor"

/-- Key for `kOUIInspectorTextWellHighlightedTextColor`. -/
def keyTextWellHighlightedTextColor : String :=
  "kOUIInspectorTextWellHighlightedTextColor"

/-- Key for `kOUIInspectorBackgroundTopColor`. -/
def keyBackgroundTopColor : String :=
  "kOUIInspectorBackgroundTopColor"

/-- Key for `kOUIInspectorBackgroundBottomColor`. -/
def keyBackgroundBottomColor : String :=
  "kOUIInspectorBackgroundBottomColor"

/-- Key for `kOUIInspectorOptionWheelEdgeGradientGray`. -/
def keyOptionWheelEdgeGradientGray : String :=
  "kOUIInspectorOptionWheelEdgeGradientGray"

/-- Key for `kOUIInspectorOptionWheelMiddleGradientGray`. -/
def keyOptionWheelMiddleGradientGray : String :=
  "kOUIInspectorOptionWheelMiddleGradientGray"

/-- Key for `kOUIInspectorOptionWheelGradientPower`. -/
def keyOptionWheelGradientPower : String :=
  "kOUIInspectorOptionWheelGradientPower"

/-- Key for `kOUILightContentOnDarkBackgroundShadowGrayAlpha`. -/
def keyLightContentOnDarkBackgroundShadowGrayAlpha : String :=
  "kOUILightContentOnDarkBackgroundShadowGrayAlpha"

/-- Key for `kOUIDarkContentOnLightBackgroundShadowGrayAlpha`. -/
def keyDarkContentOnLightBackgroundShadowGrayAlpha : String :=
  "kOUIDarkContentOnLightBackgroundShadowGrayAlpha"

/-- Key for `kOUIInspectorLabelTextColor`. -/
def keyLabelTextColor : String :=
  "kOUIInspectorLabelTextColor"

/-- Key for `kOUIBarButtonItemDisabledTextGrayForColoredButtons`. -/
def keyBarButtonItemDisabledTextGrayForColoredButtons : String :=
  "kOUIBarButtonItemDisabledTextGrayForColoredButtons"

/-- The token list transcribed from OUIParameters.h, in source order, one
entry per `#define`, carrying the exact decimal/fractional value of the
constant. -/
def ouiTokenDefs : List (String × StyleValue) :=
  [ (keyWellBorderGradientStartGrayAlpha, StyleValue.grayAlpha ⟨mkRat 31 100, 1⟩),
    (keyWellBorderGradientEndGrayAlpha, StyleValue.grayAlpha ⟨mkRat 48 100, 1⟩),
    (keyWellInnerShadowGrayAlpha, StyleValue.grayAlpha ⟨0, mkRat 4 10⟩),
    (keyWellInnerShadowBlur, StyleValue.scalar 3),
    (keyWellInnerShadowOffset, StyleValue.size ⟨0, 1⟩),
    (keyWellOuterShadowGrayAlpha, StyleValue.grayAlpha ⟨1, mkRat 5 10⟩),
    (keyWellCornerRadius, StyleValue.scalar 4),
    (keyTextWellNormalGradientTopColor,
      StyleValue.hsva ⟨mkRat 213 360, mkRat 10 100, 1, 1⟩),
    (keyTextWellNormalGradientBottomColor,
      StyleValue.hsva ⟨mkRat 210 360, mkRat 2 100, 1, 1⟩),
    (keyTextWellHighlightedGradientTopColor,
      StyleValue.hsva ⟨mkRat 213 360, mkRat 8 100, mkRat 58 100, 1⟩),
    (keyTextWellHighlightedGradientBottomColor,
      StyleValue.hsva ⟨mkRat 210 360, mkRat 5 100, mkRat 63 100, 1⟩),
    (keyTextWellTextColor, StyleValue.hsva ⟨mkRat 213 360, mkRat 50 100, mkRat 40 100, 1⟩),
    (keyTextWellHighlightedTextColor,
      StyleValue.hsva ⟨mkRat 213 360, mkRat 50 100, mkRat 30 100, 1⟩),
    (keyBackgroundTopColor, StyleValue.rgba ⟨mkRat 228 255, mkRat 231 255, mkRat 235 255, 1⟩),
    (keyBackgroundBottomColor,
      StyleValue.rgba ⟨mkRat 197 255, mkRat 200 255, mkRat 207 255, 1⟩),
    (keyOptionWheelEdgeGradientGray, StyleValue.scalar (mkRat 53 100)),
    (keyOptionWheelMiddleGradientGray, StyleValue.scalar 1),
    (keyOptionWheelGradientPower, StyleValue.scalar (mkRat 25 10)),
    (keyLightContentOnDarkBackgroundShadowGrayAlpha,
      StyleValue.grayAlpha ⟨0, mkRat 5 10⟩),
    (keyDarkContentOnLightBackgroundShadowGrayAlpha,
      StyleValue.grayAlpha ⟨1, mkRat 5 10⟩),
    (keyLabelTextColor, StyleValue.hsva ⟨mkRat 212 360, mkRat 5 10, mkRat 35 100, 1⟩),
    (keyBarButtonItemDisabledTextGrayForColoredButtons,
      StyleValue.scalar (mkRat 9 10)) ]

/-- The fully initialized style-token table, built by registering every
token of OUIParameters.h through `define` starting from the empty table. -/
def ouiStyleTable : Table :=
  match defineAll [] ouiTokenDefs with
  | DefineResult.ok t => t
  | DefineResult.duplicateKey => []

/-- The list of channel components of a style value, when the value is a
ColorValue (gray+alpha, HSV+alpha or linear-RGB+alpha); scalar and size
values carry no color channels. -/
def channels : StyleValue → List ℚ
  | StyleValue.grayAlpha g => [g.v, g.a]
  | StyleValue.hsva c => [c.h, c.s, c.v, c.a]
  | StyleValue.rgba c => [c.r, c.g, c.b, c.a]
  | StyleValue.scalar _ => []
  | StyleValue.size _ => []

/-- Whether a token is a blur-radius token: in OUIParameters.h the blur
radii are exactly the constants whose name ends in `Blur`. -/
def isBlurToken (p : String × StyleValue) : Bool :=
  p.1.data.reverse.take 4 == ("Blur".data).reverse

/-- Whether a token carries a scalar value that is nonnegative. -/
def nonnegBlur (p : String × StyleValue) : Bool :=
  match p.2 with
  | StyleValue.scalar q => decide (0 ≤ q)
  | _ => false

/-- Registering the whole token list of OUIParameters.h from the empty table
succeeds: no `define` call hits `DuplicateKey`, and the resulting state is
`ouiStyleTable`. -/
theorem ouiStyleTable_ready :
    defineAll [] ouiTokenDefs = DefineResult.ok ouiStyleTable := by decide

/-- C1: for every key registered with `define(key, value)` while building the
table from OUIParameters.h, `lookup(key)` on the fully initialized table
succeeds and returns the value passed to `define`, field for field. -/
theorem lookup_define_roundtrip :
    ∀ p ∈ ouiTokenDefs, lookup ouiStyleTable p.1 = LookupResult.ok p.2 := by
  decide

/-- Witness for C1: the round-trip at the corner-radius token. -/
theorem lookup_define_roundtrip_witness :
    lookup ouiStyleTable keyWellCornerRadius
      = LookupResult.ok (StyleValue.scalar 4) :=
  lookup_define_roundtrip (keyWellCornerRadius, StyleValue.scalar 4)
    (by decide)

/-- C2: `lookup` of the inspector-well corner radius returns exactly 4, and
`lookup` of the border-gradient start gray+alpha returns exactly
(gray = 0.31, alpha = 1.0). -/
theorem lookup_examples :
    lookup ouiStyleTable keyWellCornerRadius
      = LookupResult.ok (StyleValue.scalar 4)
    ∧ lookup ouiStyleTable keyWellBorderGradientStartGrayAlpha
      = LookupResult.ok (StyleValue.grayAlpha ⟨mkRat 31 100, 1⟩) := by
  decide

/-- C3: every channel component of every ColorValue token in the fully
initialized table lies in the closed interval [0, 1]. -/
theorem channels_in_unit_interval :
    ∀ p ∈ ouiStyleTable, ∀ c ∈ channels p.2, 0 ≤ c ∧ c ≤ 1 := by
  decide

/-- Witness for C3: the gray channel of the border-gradient start token. -/
theorem channels_in_unit_interval_witness :
    0 ≤ (mkRat 31 100 : ℚ) ∧ (mkRat 31 100 : ℚ) ≤ 1 :=
  channels_in_unit_interval
    (keyWellBorderGradientStartGrayAlpha, StyleValue.grayAlpha ⟨mkRat 31 100, 1⟩)
    (by decide) (mkRat 31 100) (by decide)

/-- C4: for every table state and key, `define` fails with `DuplicateKey`
exactly when the key is already registered, and succeeds (producing the
extended table) exactly when the key is not yet registered. -/
theorem define_duplicate_spec (t : Table) (key : String) (v : StyleValue) :
    (define t key v = DefineResult.duplicateKey ↔ containsKey t key = true)
    ∧ ((∃ t2, define t key v = DefineResult.ok t2)
        ↔ containsKey t key = false) := by
  by_cases h : containsKey t key <;> simp [define, h]

/-- C5: for every table state and key, `lookup` fails with `UnknownKey`
exactly when the key is not in the registered key set. -/
theorem lookup_unknownKey_iff (t : Table) (key : String) :
    lookup t key = LookupResult.unknownKey ↔ containsKey t key = false := by
  induction t with
  | nil => simp [lookup, containsKey]
  | cons p rest ih =>
      by_cases h : p.1 == key
      · simp [lookup, containsKey, h]
      · simpa [lookup, containsKey, h] using ih

/-- C7: `lookup` is deterministic and idempotent: two sequential invocations
with the same key, threaded through the table state, return equal results
(equal values for registered keys, the same `UnknownKey` failure
otherwise). -/
theorem lookup_idempotent (t : Table) (key : String) :
    (lookupS t key).1 = (lookupS (lookupS t key).2 key).1 := rfl

/-- C8: `lookup` never changes the table state, whether it succeeds or fails
with `UnknownKey`; the modelled public contract has no update or delete
operation, so after initialization the state is fixed. -/
theorem lookup_preserves_table (t : Table) (key : String) :
    (lookupS t key).2 = t := rfl

/-- C9: every blur-radius token in the table is a nonnegative scalar; in
particular the inspector-well inner shadow has blur radius 3 and offset
(dx = 0, dy = 1). -/
theorem shadow_blur_nonneg :
    (∀ p ∈ ouiStyleTable, isBlurToken p = true → nonnegBlur p = true)
    ∧ lookup ouiStyleTable keyWellInnerShadowBlur
        = LookupResult.ok (StyleValue.scalar 3)
    ∧ lookup ouiStyleTable keyWellInnerShadowOffset
        = LookupResult.ok (StyleValue.size ⟨0, 1⟩) := by
  decide

/-- Witness for C9: the inner-shadow blur token itself is nonnegative. -/
theorem shadow_blur_nonneg_witness :
    nonnegBlur (keyWellInnerShadowBlur, StyleValue.scalar 3) = true :=
  shadow_blur_nonneg.1 (keyWellInnerShadowBlur, StyleValue.scalar 3)
    (by decide) (by decide)

/-- C10: for the inspector text well, each highlighted color is strictly
darker than its normal counterpart (strictly smaller HSV value component:
0.58 < 1.00, 0.63 < 1.00 for the gradient colors, 0.30 < 0.40 for the text
colors), and the two text colors agree in hue, saturation and alpha. -/
theorem highlighted_darker :
    ∃ nt nb ht hb tc htc : OSHSV,
      lookup ouiStyleTable keyTextWellNormalGradientTopColor
        = LookupResult.ok (StyleValue.hsva nt)
      ∧ lookup ouiStyleTable keyTextWellNormalGradientBottomColor
        = LookupResult.ok (StyleValue.hsva nb)
      ∧ lookup ouiStyleTable keyTextWellHighlightedGradientTopColor
        = LookupResult.ok (StyleValue.hsva ht)
      ∧ lookup ouiStyleTable keyTextWellHighlightedGradientBottomColor
        = LookupResult.ok (StyleValue.hsva hb)
      ∧ lookup ouiStyleTable keyTextWellTextColor
        = LookupResult.ok (StyleValue.hsva tc)
      ∧ lookup ouiStyleTable keyTextWellHighlightedTextColor
        = LookupResult.ok (StyleValue.hsva htc)
      ∧ ht.v < nt.v ∧ hb.v < nb.v ∧ htc.v < tc.v
      ∧ ht.v = mkRat 58 100 ∧ nt.v = 1 ∧ hb.v = mkRat 63 100 ∧ nb.v = 1
      ∧ htc.v = mkRat 30 100 ∧ tc.v = mkRat 40 100
      ∧ htc.h = tc.h ∧ htc.s = tc.s ∧ htc.a = tc.a := by
  refine ⟨⟨mkRat 213 360, mkRat 10 100, 1, 1⟩, ⟨mkRat 210 360, mkRat 2 100, 1, 1⟩,
    ⟨mkRat 213 360, mkRat 8 100, mkRat 58 100, 1⟩, ⟨mkRat 210 360, mkRat 5 100, mkRat 63 100, 1⟩,
    ⟨mkRat 213 360, mkRat 50 100, mkRat 40 100, 1⟩, ⟨mkRat 213 360, mkRat 50 100, mkRat 30 100, 1⟩, ?_⟩
  decide

/-- C6: keys in the fully initialized table are unique: no two tokens share
a key. -/
theorem table_keys_nodup : (ouiStyleTable.map Prod.fst).Nodup := by
  decide

end OUIParameters
